import Mathlib

/-!
Verification of the gilrs event-filter module (`src/ev/filter.rs`).

The module defines four event filters (`Jitter`, `deadzone`,
`axis_dpad_to_button`, `Repeat`) over an optional-event pipeline.  The
device backend (`Gamepad`, `Gilrs`, native event codes, `Event::dropped`)
lives outside the filter module; filters only read it.  We embed `f32`
values as real numbers, `SystemTime` instants and `Duration`s as natural
numbers in a common abstract unit, and the fallible deadzone-threshold
lookup (a panicking `expect` in the source) as an `Except` result.
-/

namespace GilrsEv

/-- Logical axis names, as consumed by the filter module. -/
inductive Axis
  | LeftStickX
  | LeftStickY
  | LeftZ
  | RightStickX
  | RightStickY
  | RightZ
  | DPadX
  | DPadY
  | Unknown
deriving DecidableEq

/-- Logical button names, as consumed by the filter module. -/
inductive Button
  | South
  | East
  | North
  | West
  | LeftTrigger
  | RightTrigger
  | Select
  | Start
  | DPadUp
  | DPadDown
  | DPadLeft
  | DPadRight
  | Unknown
deriving DecidableEq

/-- Tagged event variants.  `f32` axis values are embedded as `ℝ`; native
event codes (`u16` in the source) as `ℕ`. -/
inductive EventType
  | buttonPressed (b : Button) (nec : ℕ)
  | buttonReleased (b : Button) (nec : ℕ)
  | buttonRepeated (b : Button) (nec : ℕ)
  | axisChanged (a : Axis) (value : ℝ) (nec : ℕ)
  | connected
  | disconnected
  | dropped

/-- The event envelope: device id, timestamp, kind. -/
structure Event where
  id : ℕ
  time : ℕ
  event : EventType

/-- Modelled from the spec: `Event::dropped()` constructs the sentinel
event whose kind is `Dropped`; the spec leaves its id and timestamp
unspecified (the sentinel carries no application-visible meaning). -/
def Event.dropped : Event := ⟨0, 0, EventType.dropped⟩

/-- Modelled from the spec: per-axis last known value, as exposed by the
backend state view (`AxisData::value`). -/
structure AxisData where
  value : ℝ

/-- Modelled from the spec: per-button last known state, as exposed by the
backend state view: pressed/released flag, "is repeating" flag, and the
timestamp of the last state transition. -/
structure ButtonData where
  pressed : Bool
  repeating : Bool
  timestamp : ℕ
deriving DecidableEq

/-- Modelled from the spec: the read-only per-device state view
(`GamepadState`): per-axis data keyed by native code, per-native-code last
value, per-native-code pressed flag, and the enumerable button states. -/
structure GamepadState where
  axisData : ℕ → Option AxisData
  value : ℕ → ℝ
  isPressed : ℕ → Bool
  buttons : List (ℕ × ButtonData)

/-- Modelled from the spec: the read-only device view (`Gamepad`): its
state, the per-native-code deadzone threshold lookup (absent when the code
is unrecognized), the per-logical-axis current value, and the native-code ↔
logical-button resolution. -/
structure Gamepad where
  state : GamepadState
  deadzone : ℕ → Option ℝ
  value : Axis → ℝ
  buttonName : ℕ → Button
  buttonCode : Button → Option ℕ

/-- Modelled from the spec: the backend handle (`Gilrs`): device lookup by
id and device enumeration in a fixed order. -/
structure Gilrs where
  gamepad : ℕ → Gamepad
  gamepads : List (ℕ × Gamepad)

/-- Modelled from the spec: platform-defined native event code for the
dpad-up button (value arbitrary but fixed, here the Linux code). -/
def BTN_DPAD_UP : ℕ := 544

/-- Modelled from the spec: platform-defined native event code for the
dpad-down button. -/
def BTN_DPAD_DOWN : ℕ := 545

/-- Modelled from the spec: platform-defined native event code for the
dpad-left button. -/
def BTN_DPAD_LEFT : ℕ := 546

/-- Modelled from the spec: platform-defined native event code for the
dpad-right button. -/
def BTN_DPAD_RIGHT : ℕ := 547

/-- The `Jitter` filter: discards axis events that changed less than
`threshold`. -/
structure Jitter where
  threshold : ℝ

/-- `Jitter::new`: threshold 0.01. -/
noncomputable def Jitter.new : Jitter := ⟨0.01⟩

/-- `Jitter::filter` (`impl FilterFn for Jitter`): for a present
`AxisChanged` event, if the device has recorded data for the event's native
axis code and the change is strictly below the threshold, replace the event
with the dropped sentinel; otherwise pass the input through unchanged. -/
noncomputable def Jitter.filter (self : Jitter) (ev : Option Event) (gilrs : Gilrs) :
    Option Event :=
  match ev with
  | some ⟨id, _, EventType.axisChanged _ val axis⟩ =>
    match (gilrs.gamepad id).state.axisData axis with
    | some data =>
      if |val - data.value| < self.threshold then some Event.dropped else ev
    | _ => ev
  | _ => ev

/-- `apply_deadzone`: 2D-vector deadzone remapping of `(x, y)` under
`threshold`. -/
noncomputable def apply_deadzone (x y threshold : ℝ) : ℝ × ℝ :=
  let magnitude := Real.sqrt (x * x + y * y)
  if magnitude ≤ threshold then
    (0, 0)
  else
    let norm := ((magnitude - threshold) / (1 - threshold)) / magnitude
    (x * norm, y * norm)

/-- The `deadzone` filter.  The source panics (`expect`) when the device
does not recognize the event's native axis code; we model that fatal exit
as the `Except.error` case, every normal return as `Except.ok`. -/
noncomputable def deadzone (ev : Option Event) (gilrs : Gilrs) :
    Except String (Option Event) :=
  match ev with
  | some ⟨id, time, EventType.axisChanged axis val nec⟩ =>
    let gp := gilrs.gamepad id
    match gp.deadzone nec with
    | none => Except.error "Got event with not existing axis"
    | some threshold =>
      let val :=
        (match axis with
          | Axis.LeftStickY => apply_deadzone val (gp.value Axis.LeftStickX) threshold
          | Axis.LeftStickX => apply_deadzone val (gp.value Axis.LeftStickY) threshold
          | Axis.RightStickY => apply_deadzone val (gp.value Axis.RightStickX) threshold
          | Axis.RightStickX => apply_deadzone val (gp.value Axis.RightStickY) threshold
          | _ => apply_deadzone val 0 threshold).1
      Except.ok (some (if gp.state.value nec = val then Event.dropped
        else ⟨id, time, EventType.axisChanged axis val nec⟩))
  | _ => Except.ok ev

/-- `can_map` (local to `axis_dpad_to_button`): the device's native dpad
codes are not bound to named buttons and the device has no native
dpad-right button code. -/
def can_map (gp : Gamepad) : Bool :=
  gp.buttonName BTN_DPAD_RIGHT == Button.Unknown
    && gp.buttonName BTN_DPAD_LEFT == Button.Unknown
    && gp.buttonName BTN_DPAD_DOWN == Button.Unknown
    && gp.buttonName BTN_DPAD_UP == Button.Unknown
    && (gp.buttonCode Button.DPadRight).isNone

/-- `axis_dpad_to_button`: maps analog dpad axis events to digital button
events on devices where `can_map` holds; all other inputs pass through. -/
noncomputable def axis_dpad_to_button (ev : Option Event) (gilrs : Gilrs) :
    Option Event :=
  match ev with
  | some ⟨id, time, EventType.axisChanged Axis.DPadX val _⟩ =>
    if can_map (gilrs.gamepad id) then
      some (if val = 1 then
          ⟨id, time, EventType.buttonPressed Button.DPadRight BTN_DPAD_RIGHT⟩
        else if val = -1 then
          ⟨id, time, EventType.buttonPressed Button.DPadLeft BTN_DPAD_LEFT⟩
        else if (gilrs.gamepad id).state.isPressed BTN_DPAD_RIGHT then
          ⟨id, time, EventType.buttonReleased Button.DPadRight BTN_DPAD_RIGHT⟩
        else
          ⟨id, time, EventType.buttonReleased Button.DPadLeft BTN_DPAD_LEFT⟩)
    else ev
  | some ⟨id, time, EventType.axisChanged Axis.DPadY val _⟩ =>
    if can_map (gilrs.gamepad id) then
      some (if val = 1 then
          ⟨id, time, EventType.buttonPressed Button.DPadUp BTN_DPAD_UP⟩
        else if val = -1 then
          ⟨id, time, EventType.buttonPressed Button.DPadDown BTN_DPAD_DOWN⟩
        else if (gilrs.gamepad id).state.isPressed BTN_DPAD_UP then
          ⟨id, time, EventType.buttonReleased Button.DPadUp BTN_DPAD_UP⟩
        else
          ⟨id, time, EventType.buttonReleased Button.DPadDown BTN_DPAD_DOWN⟩)
    else ev
  | _ => ev

/-- The `Repeat` filter: synthesizes `ButtonRepeated` events for held
buttons.  Durations (`after`, `every`) share the time unit of event
timestamps. -/
structure Repeat where
  after : ℕ
  every : ℕ
deriving DecidableEq

/-- `Repeat::new`: `after` 500 ms, `every` 30 ms (times in milliseconds). -/
def Repeat.new : Repeat := ⟨500, 30⟩

/-- Modelled from the spec: `SystemTime::duration_since` yields the elapsed
duration when the clock did not move backward, and fails otherwise. -/
def durationSince (now earlier : ℕ) : Option ℕ :=
  if earlier ≤ now then some (now - earlier) else none

/-- The inner loop of `Repeat::filter` over one device's tracked buttons:
return a repeat event for the first qualifying button.  The source casts
the enumerated native code to `u16` (`nec as u16`), embedded as `% 65536`. -/
def Repeat.scanButtons (self : Repeat) (now id : ℕ) (gamepad : Gamepad) :
    List (ℕ × ButtonData) → Option Event
  | [] => none
  | (nec, btn_data) :: rest =>
    let nec := nec % 65536
    match btn_data.pressed, btn_data.repeating,
        durationSince now btn_data.timestamp with
    | true, false, some dur =>
      if self.after ≤ dur then
        some ⟨id, btn_data.timestamp + self.after,
          EventType.buttonRepeated (gamepad.buttonName nec) nec⟩
      else self.scanButtons now id gamepad rest
    | true, true, some dur =>
      if self.every ≤ dur then
        some ⟨id, btn_data.timestamp + self.every,
          EventType.buttonRepeated (gamepad.buttonName nec) nec⟩
      else self.scanButtons now id gamepad rest
    | _, _, _ => self.scanButtons now id gamepad rest

/-- The outer loop of `Repeat::filter` over the enumerated devices. -/
def Repeat.scanGamepads (self : Repeat) (now : ℕ) :
    List (ℕ × Gamepad) → Option Event
  | [] => none
  | (id, gamepad) :: rest =>
    match self.scanButtons now id gamepad gamepad.state.buttons with
    | some e => some e
    | none => self.scanGamepads now rest

/-- `Repeat::filter` (`impl FilterFn for Repeat`): a present event passes
through; on absence, scan devices and buttons for the first qualifying held
button.  The source reads the wall clock (`SystemTime::now()`); we pass the
current instant `now` explicitly. -/
def Repeat.filter (self : Repeat) (ev : Option Event) (gilrs : Gilrs) (now : ℕ) :
    Option Event :=
  match ev with
  | some e => some e
  | none => self.scanGamepads now gilrs.gamepads

/-- The paired-axis value the deadzone filter reads for a changed axis:
stick X pairs with stick Y (independently per stick) and every other axis
pairs with the constant 0. -/
noncomputable def pairedValue (gp : Gamepad) (axis : Axis) : ℝ :=
  match axis with
  | Axis.LeftStickY => gp.value Axis.LeftStickX
  | Axis.LeftStickX => gp.value Axis.LeftStickY
  | Axis.RightStickY => gp.value Axis.RightStickX
  | Axis.RightStickX => gp.value Axis.RightStickY
  | _ => 0

/-- Follows the spec's words: a tracked button qualifies for repetition at
instant `now` when it is pressed, its elapsed time since the last
transition is non-negative, and that elapsed time reaches `every` (when
the button is already repeating) or `after` (when it is not). -/
def Repeat.qualifies (self : Repeat) (now : ℕ) (bd : ButtonData) : Bool :=
  bd.pressed && decide (bd.timestamp ≤ now) &&
    (if bd.repeating then decide (self.every ≤ now - bd.timestamp)
     else decide (self.after ≤ now - bd.timestamp))

/-- Follows the spec's words: the synthesized repeat event for a
qualifying button, timestamped at the button's last-transition timestamp
plus the matched interval (`every` when repeating, `after` otherwise). -/
def Repeat.repeatEvent (self : Repeat) (id : ℕ) (gamepad : Gamepad) (nec : ℕ)
    (bd : ButtonData) : Event :=
  ⟨id, bd.timestamp + (if bd.repeating then self.every else self.after),
    EventType.buttonRepeated (gamepad.buttonName (nec % 65536)) (nec % 65536)⟩

/-- Follows the spec's words: scan devices and tracked buttons in
enumeration order and synthesize the repeat event of the first qualifying
button, if any. -/
def Repeat.firstRepeat (self : Repeat) (now : ℕ)
    (gamepads : List (ℕ × Gamepad)) : Option Event :=
  gamepads.findSome? fun p =>
    (p.2.state.buttons.find? fun q => self.qualifies now q.2).map fun q =>
      self.repeatEvent p.1 p.2 q.1 q.2

/-- A concrete device view for instantiating theorems: every axis has
recorded data with value 0, every native-code value reads 0, no button is
pressed, no buttons are tracked, every axis code has deadzone threshold
0.2, no native code is bound to a named button, and no dpad-right button
code exists (so `can_map` holds). -/
noncomputable def gpZero : Gamepad :=
  ⟨⟨fun _ => some ⟨0⟩, fun _ => 0, fun _ => false, []⟩,
    fun _ => some 0.2, fun _ => 0, fun _ => Button.Unknown, fun _ => none⟩

/-- A backend handle exposing `gpZero` under every id. -/
noncomputable def gZero : Gilrs := ⟨fun _ => gpZero, [(0, gpZero)]⟩

/-- Like `gpZero` but with no recorded axis data at all. -/
noncomputable def gpNoAxis : Gamepad :=
  ⟨⟨fun _ => none, fun _ => 0, fun _ => false, []⟩,
    fun _ => some 0.2, fun _ => 0, fun _ => Button.Unknown, fun _ => none⟩

/-- A backend handle exposing `gpNoAxis` under every id. -/
noncomputable def gNoAxis : Gilrs := ⟨fun _ => gpNoAxis, [(0, gpNoAxis)]⟩

/-- Like `gpZero` but with no deadzone threshold recorded for any native
axis code. -/
noncomputable def gpNoDz : Gamepad :=
  ⟨⟨fun _ => some ⟨0⟩, fun _ => 0, fun _ => false, []⟩,
    fun _ => none, fun _ => 0, fun _ => Button.Unknown, fun _ => none⟩

/-- A backend handle exposing `gpNoDz` under every id. -/
noncomputable def gNoDz : Gilrs := ⟨fun _ => gpNoDz, [(0, gpNoDz)]⟩

/-- Like `gpZero` but tracking one released button (native code 3, last
transition at instant 7). -/
noncomputable def gpIdle : Gamepad :=
  ⟨⟨fun _ => some ⟨0⟩, fun _ => 0, fun _ => false, [(3, ⟨false, false, 7⟩)]⟩,
    fun _ => some 0.2, fun _ => 0, fun _ => Button.Unknown, fun _ => none⟩

/-- A backend handle exposing `gpIdle` under every id. -/
noncomputable def gIdle : Gilrs := ⟨fun _ => gpIdle, [(0, gpIdle)]⟩

/-- Like `gpZero` but with every native-code state value reading 0.375,
the deadzone-normalized image of the raw value 0.5 under threshold 0.2. -/
noncomputable def gpStored : Gamepad :=
  ⟨⟨fun _ => some ⟨0⟩, fun _ => 0.375, fun _ => false, []⟩,
    fun _ => some 0.2, fun _ => 0, fun _ => Button.Unknown, fun _ => none⟩

/-- A backend handle exposing `gpStored` under every id. -/
noncomputable def gStored : Gilrs := ⟨fun _ => gpStored, [(0, gpStored)]⟩

lemma deadzone_axisChanged (gilrs : Gilrs) (id time : ℕ) (axis : Axis) (val : ℝ)
    (nec : ℕ) (t : ℝ) (h : (gilrs.gamepad id).deadzone nec = some t) :
    deadzone (some ⟨id, time, EventType.axisChanged axis val nec⟩) gilrs =
      Except.ok (some
        (if (gilrs.gamepad id).state.value nec =
            (apply_deadzone val (pairedValue (gilrs.gamepad id) axis) t).1 then
          Event.dropped
        else
          ⟨id, time, EventType.axisChanged axis
            (apply_deadzone val (pairedValue (gilrs.gamepad id) axis) t).1 nec⟩)) := by
  cases axis <;> simp [deadzone, pairedValue, h]

lemma scanButtons_eq_find (self : Repeat) (now id : ℕ) (gamepad : Gamepad) :
    ∀ l : List (ℕ × ButtonData),
      self.scanButtons now id gamepad l =
        (l.find? fun q => self.qualifies now q.2).map fun q =>
          self.repeatEvent id gamepad q.1 q.2
  | [] => by simp [Repeat.scanButtons]
  | (nec, bd) :: rest => by
    have IH := scanButtons_eq_find self now id gamepad rest
    rcases bd with ⟨p, r, ts⟩
    by_cases hts : ts ≤ now
    · cases p
      · rw [List.find?_cons_of_neg _ (by simp [Repeat.qualifies])]
        rw [← IH]
        cases r <;> simp [Repeat.scanButtons, durationSince, hts]
      · cases r
        · by_cases h2 : self.after ≤ now - ts
          · rw [List.find?_cons_of_pos _ (by simp [Repeat.qualifies, hts, h2])]
            simp [Repeat.scanButtons, durationSince, hts, h2, Repeat.repeatEvent]
          · rw [List.find?_cons_of_neg _ (by simp [Repeat.qualifies, h2])]
            rw [← IH]
            simp [Repeat.scanButtons, durationSince, hts, h2]
        · by_cases h2 : self.every ≤ now - ts
          · rw [List.find?_cons_of_pos _ (by simp [Repeat.qualifies, hts, h2])]
            simp [Repeat.scanButtons, durationSince, hts, h2, Repeat.repeatEvent]
          · rw [List.find?_cons_of_neg _ (by simp [Repeat.qualifies, h2])]
            rw [← IH]
            simp [Repeat.scanButtons, durationSince, hts, h2]
    · rw [List.find?_cons_of_neg _ (by simp [Repeat.qualifies, hts])]
      rw [← IH]
      cases p <;> cases r <;> simp [Repeat.scanButtons, durationSince, hts]

lemma filter_none_eq_firstRepeat (self : Repeat) (now : ℕ) (gilrs : Gilrs) :
    self.filter none gilrs now = self.firstRepeat now gilrs.gamepads := by
  show self.scanGamepads now gilrs.gamepads = self.firstRepeat now gilrs.gamepads
  induction gilrs.gamepads with
  | nil => simp [Repeat.scanGamepads, Repeat.firstRepeat]
  | cons hd tl IH =>
    rcases hd with ⟨id, gamepad⟩
    rw [Repeat.scanGamepads, scanButtons_eq_find]
    rcases hfind : gamepad.state.buttons.find? fun q => self.qualifies now q.2 with _ | q
    · rw [hfind]
      simp only [Repeat.firstRepeat]
      rw [List.findSome?_cons_of_isNone _ (by simp [hfind])]
      simpa [Repeat.firstRepeat] using IH
    · rw [hfind]
      simp only [Repeat.firstRepeat]
      rw [List.findSome?_cons_of_isSome _ (by simp [hfind])]
      simp [hfind]

lemma axis_dpad_DPadX (g : Gilrs) (id time : ℕ) (val : ℝ) (nec : ℕ)
    (hcm : can_map (g.gamepad id) = true) :
    axis_dpad_to_button (some ⟨id, time, EventType.axisChanged Axis.DPadX val nec⟩) g =
      some (if val = 1 then
          ⟨id, time, EventType.buttonPressed Button.DPadRight BTN_DPAD_RIGHT⟩
        else if val = -1 then
          ⟨id, time, EventType.buttonPressed Button.DPadLeft BTN_DPAD_LEFT⟩
        else if (g.gamepad id).state.isPressed BTN_DPAD_RIGHT then
          ⟨id, time, EventType.buttonReleased Button.DPadRight BTN_DPAD_RIGHT⟩
        else
          ⟨id, time, EventType.buttonReleased Button.DPadLeft BTN_DPAD_LEFT⟩) := by
  simp [axis_dpad_to_button, hcm]

lemma axis_dpad_DPadY (g : Gilrs) (id time : ℕ) (val : ℝ) (nec : ℕ)
    (hcm : can_map (g.gamepad id) = true) :
    axis_dpad_to_button (some ⟨id, time, EventType.axisChanged Axis.DPadY val nec⟩) g =
      some (if val = 1 then
          ⟨id, time, EventType.buttonPressed Button.DPadUp BTN_DPAD_UP⟩
        else if val = -1 then
          ⟨id, time, EventType.buttonPressed Button.DPadDown BTN_DPAD_DOWN⟩
        else if (g.gamepad id).state.isPressed BTN_DPAD_UP then
          ⟨id, time, EventType.buttonReleased Button.DPadUp BTN_DPAD_UP⟩
        else
          ⟨id, time, EventType.buttonReleased Button.DPadDown BTN_DPAD_DOWN⟩) := by
  simp [axis_dpad_to_button, hcm]

lemma apply_deadzone_eval_half : (apply_deadzone 0.5 0 0.2).1 = 0.375 := by
  have hm : Real.sqrt (0.5 * 0.5 + 0 * 0) = (0.5 : ℝ) := by
    rw [show (0.5 * 0.5 + 0 * 0 : ℝ) = 0.5 ^ 2 by norm_num,
      Real.sqrt_sq (by norm_num)]
  simp only [apply_deadzone]
  rw [hm, if_neg (by norm_num)]
  norm_num

lemma apply_deadzone_eval_378 : (apply_deadzone 0.375 0 0.2).1 = 0.21875 := by
  have hm : Real.sqrt (0.375 * 0.375 + 0 * 0) = (0.375 : ℝ) := by
    rw [show (0.375 * 0.375 + 0 * 0 : ℝ) = 0.375 ^ 2 by norm_num,
      Real.sqrt_sq (by norm_num)]
  simp only [apply_deadzone]
  rw [hm, if_neg (by norm_num)]
  norm_num

/-- C5: for the Jitter filter with threshold `t`, a present AxisChanged
event whose new value differs from the device's last recorded value for
that axis by strictly less than `t` is replaced by Dropped; one differing
by at least `t` passes through unchanged; absence and every non-axis event
pass through unchanged. -/
theorem jitter_contract (j : Jitter) (g : Gilrs) (id time : ℕ) (a : Axis)
    (val : ℝ) (nec : ℕ) (d : AxisData)
    (h : (g.gamepad id).state.axisData nec = some d) :
    (|val - d.value| < j.threshold →
      j.filter (some ⟨id, time, EventType.axisChanged a val nec⟩) g =
        some Event.dropped) ∧
    (j.threshold ≤ |val - d.value| →
      j.filter (some ⟨id, time, EventType.axisChanged a val nec⟩) g =
        some ⟨id, time, EventType.axisChanged a val nec⟩) ∧
    j.filter none g = none ∧
    (∀ e : Event, (∀ a' v' n', e.event ≠ EventType.axisChanged a' v' n') →
      j.filter (some e) g = some e) := by
  refine ⟨fun hlt => ?_, fun hge => ?_, rfl, fun e he => ?_⟩
  · simp [Jitter.filter, h, hlt]
  · simp [Jitter.filter, h, not_lt.mpr hge]
  · rcases e with ⟨eid, etime, k⟩
    cases k <;> first
      | rfl
      | exact absurd rfl (he _ _ _)

/-- Witness for C5 at threshold 0.01: a change from 0 to 0.005 is dropped. -/
theorem jitter_contract_witness :
    Jitter.filter ⟨0.01⟩
        (some ⟨0, 0, EventType.axisChanged Axis.LeftStickX 0.005 0⟩) gZero =
      some Event.dropped :=
  (jitter_contract ⟨0.01⟩ gZero 0 0 Axis.LeftStickX 0.005 0 ⟨0⟩ rfl).1
    (by norm_num [abs_lt])

/-- C9: when the device has no recorded axis data for the axis of an
incoming AxisChanged event, the Jitter filter passes the event through
unchanged for every threshold value. -/
theorem jitter_no_record_passthrough (j : Jitter) (g : Gilrs) (id time : ℕ)
    (a : Axis) (val : ℝ) (nec : ℕ)
    (h : (g.gamepad id).state.axisData nec = none) :
    j.filter (some ⟨id, time, EventType.axisChanged a val nec⟩) g =
      some ⟨id, time, EventType.axisChanged a val nec⟩ := by
  simp [Jitter.filter, h]

/-- Witness for C9: a device with no recorded axis data passes a large and
a tiny change through alike. -/
theorem jitter_no_record_passthrough_witness :
    Jitter.filter ⟨0.01⟩
        (some ⟨0, 0, EventType.axisChanged Axis.LeftStickX 0.005 5⟩) gNoAxis =
      some ⟨0, 0, EventType.axisChanged Axis.LeftStickX 0.005 5⟩ :=
  jitter_no_record_passthrough ⟨0.01⟩ gNoAxis 0 0 Axis.LeftStickX 0.005 5 rfl

lemma jitter_some_isSome (j : Jitter) (g : Gilrs) (e : Event) :
    ∃ e1, j.filter (some e) g = some e1 := by
  rcases e with ⟨id, time, k⟩
  cases k <;> try exact ⟨_, rfl⟩
  case axisChanged a v n =>
    rcases h : (g.gamepad id).state.axisData n with _ | d
    · exact ⟨⟨id, time, EventType.axisChanged a v n⟩, by simp [Jitter.filter, h]⟩
    · by_cases hlt : |v - d.value| < j.threshold
      · exact ⟨Event.dropped, by simp [Jitter.filter, h, hlt]⟩
      · exact ⟨⟨id, time, EventType.axisChanged a v n⟩,
          by simp [Jitter.filter, h, hlt]⟩

lemma deadzone_some_not_none (g : Gilrs) (e : Event) :
    (∃ msg, deadzone (some e) g = Except.error msg) ∨
      ∃ e2, deadzone (some e) g = Except.ok (some e2) := by
  rcases e with ⟨id, time, k⟩
  cases k <;> try exact Or.inr ⟨_, rfl⟩
  case axisChanged a v n =>
    rcases h : (g.gamepad id).deadzone n with _ | t
    · exact Or.inl ⟨"Got event with not existing axis",
        by cases a <;> simp [deadzone, h]⟩
    · exact Or.inr ⟨_, deadzone_axisChanged g id time a v n t h⟩

lemma axis_dpad_some_isSome (g : Gilrs) (e : Event) :
    ∃ e3, axis_dpad_to_button (some e) g = some e3 := by
  rcases e with ⟨id, time, k⟩
  cases k <;> try exact ⟨_, rfl⟩
  case axisChanged a v n =>
    cases a <;> try exact ⟨_, rfl⟩
    case DPadX =>
      by_cases hcm : can_map (g.gamepad id) = true
      · exact ⟨_, axis_dpad_DPadX g id time v n hcm⟩
      · exact ⟨⟨id, time, EventType.axisChanged Axis.DPadX v n⟩,
          by simp [axis_dpad_to_button, hcm]⟩
    case DPadY =>
      by_cases hcm : can_map (g.gamepad id) = true
      · exact ⟨_, axis_dpad_DPadY g id time v n hcm⟩
      · exact ⟨⟨id, time, EventType.axisChanged Axis.DPadY v n⟩,
          by simp [axis_dpad_to_button, hcm]⟩

/-- C2: none of the four filters ever turns a present event into absence:
Jitter, axis_dpad_to_button and Repeat return a present event for every
present input, and deadzone either exits fatally (unrecognized axis code,
the `Except.error` case) or returns a present event — none of them
returns `none` on present input. -/
theorem present_never_none (j : Jitter) (r : Repeat) (g : Gilrs) (now : ℕ)
    (e : Event) :
    (∃ e1, j.filter (some e) g = some e1) ∧
    ((∃ msg, deadzone (some e) g = Except.error msg) ∨
      ∃ e2, deadzone (some e) g = Except.ok (some e2)) ∧
    (∃ e3, axis_dpad_to_button (some e) g = some e3) ∧
    (∃ e4, r.filter (some e) g now = some e4) :=
  ⟨jitter_some_isSome j g e, deadzone_some_not_none g e,
    axis_dpad_some_isSome g e, ⟨e, rfl⟩⟩

/-- C8: the deadzone filter exits fatally (modelled as `Except.error`,
the source's panicking `expect`) exactly when the present AxisChanged
event's native axis code has no deadzone entry on the device; for every
recognized code the failure branch is unreachable. -/
theorem deadzone_unrecognized_axis (g : Gilrs) (id time : ℕ) (axis : Axis)
    (val : ℝ) (nec : ℕ) :
    ((g.gamepad id).deadzone nec = none →
      deadzone (some ⟨id, time, EventType.axisChanged axis val nec⟩) g =
        Except.error "Got event with not existing axis") ∧
    (∀ t, (g.gamepad id).deadzone nec = some t →
      ∀ msg, deadzone (some ⟨id, time, EventType.axisChanged axis val nec⟩) g ≠
        Except.error msg) := by
  constructor
  · intro h
    cases axis <;> simp [deadzone, h]
  · intro t h msg
    rw [deadzone_axisChanged g id time axis val nec t h]
    simp

/-- Witness for C8: a device with no deadzone entry makes the filter exit
fatally, and one with an entry never does. -/
theorem deadzone_unrecognized_axis_witness :
    deadzone (some ⟨0, 0, EventType.axisChanged Axis.LeftZ 0.5 9⟩) gNoDz =
      Except.error "Got event with not existing axis" ∧
    deadzone (some ⟨0, 0, EventType.axisChanged Axis.LeftZ 0.5 9⟩) gZero ≠
      Except.error "Got event with not existing axis" :=
  ⟨(deadzone_unrecognized_axis gNoDz 0 0 Axis.LeftZ 0.5 9).1 rfl,
    (deadzone_unrecognized_axis gZero 0 0 Axis.LeftZ 0.5 9).2 0.2 rfl
      "Got event with not existing axis"⟩

/-- C4: the deadzone filter's contract on AxisChanged events.  With paired
value `y` (the paired stick axis's stored value, 0 for non-stick axes) and
magnitude `m = sqrt(x² + y²)`: if `m ≤ threshold` the normalized value is
exactly 0; if `m > threshold` the changed component is scaled by
`((m − threshold) / (1 − threshold)) / m`; the result is emitted as an
AxisChanged event unless it equals the stored value for that native code,
in which case the dropped sentinel is emitted. -/
theorem deadzone_contract (g : Gilrs) (id time : ℕ) (axis : Axis) (val : ℝ)
    (nec : ℕ) (t : ℝ) (h : (g.gamepad id).deadzone nec = some t) :
    (Real.sqrt (val * val +
        pairedValue (g.gamepad id) axis * pairedValue (g.gamepad id) axis) ≤ t →
      (apply_deadzone val (pairedValue (g.gamepad id) axis) t).1 = 0) ∧
    (t < Real.sqrt (val * val +
        pairedValue (g.gamepad id) axis * pairedValue (g.gamepad id) axis) →
      (apply_deadzone val (pairedValue (g.gamepad id) axis) t).1 =
        val * (((Real.sqrt (val * val +
          pairedValue (g.gamepad id) axis * pairedValue (g.gamepad id) axis) - t) /
            (1 - t)) / Real.sqrt (val * val +
          pairedValue (g.gamepad id) axis * pairedValue (g.gamepad id) axis))) ∧
    ((g.gamepad id).state.value nec =
        (apply_deadzone val (pairedValue (g.gamepad id) axis) t).1 →
      deadzone (some ⟨id, time, EventType.axisChanged axis val nec⟩) g =
        Except.ok (some Event.dropped)) ∧
    ((g.gamepad id).state.value nec ≠
        (apply_deadzone val (pairedValue (g.gamepad id) axis) t).1 →
      deadzone (some ⟨id, time, EventType.axisChanged axis val nec⟩) g =
        Except.ok (some ⟨id, time, EventType.axisChanged axis
          (apply_deadzone val (pairedValue (g.gamepad id) axis) t).1 nec⟩)) := by
  refine ⟨fun hm => ?_, fun hm => ?_, fun heq => ?_, fun hne => ?_⟩
  · simp [apply_deadzone, hm]
  · simp [apply_deadzone, not_le.mpr hm]
  · rw [deadzone_axisChanged g id time axis val nec t h, if_pos heq]
  · rw [deadzone_axisChanged g id time axis val nec t h, if_neg hne]

/-- Witness for C4, the spec's end-to-end example: threshold 0.2, the axis
jumps to 0.5 with paired value 0, magnitude 0.5, remapped to 0.375 and
emitted. -/
theorem deadzone_contract_witness :
    (apply_deadzone 0.5 0 0.2).1 = 0.375 ∧
    deadzone (some ⟨0, 3, EventType.axisChanged Axis.LeftStickX 0.5 4⟩) gZero =
      Except.ok (some ⟨0, 3, EventType.axisChanged Axis.LeftStickX 0.375 4⟩) := by
  refine ⟨apply_deadzone_eval_half, ?_⟩
  have h4 := (deadzone_contract gZero 0 3 Axis.LeftStickX 0.5 4 0.2 rfl).2.2.2
  rw [show pairedValue (gZero.gamepad 0) Axis.LeftStickX = 0 from rfl,
    apply_deadzone_eval_half] at h4
  exact h4 (by show (0 : ℝ) ≠ 0.375; norm_num)

/-- C6: on absence, the Repeat filter returns exactly the result of
scanning devices and tracked buttons in enumeration order for the first
button that is pressed and whose non-negative elapsed time reaches `after`
(not yet repeating) or `every` (already repeating); the synthesized
event's timestamp is the button's last-transition timestamp plus the
matched interval, not the current instant, and a button whose elapsed
duration would be negative never matches (`Repeat.qualifies` requires
`timestamp ≤ now`, and `Repeat.repeatEvent` does not mention `now`). -/
theorem repeat_filter_none_first_match (r : Repeat) (g : Gilrs) (now : ℕ) :
    r.filter none g now = r.firstRepeat now g.gamepads :=
  filter_none_eq_firstRepeat r now g

/-- C7: the Repeat filter acts only on absence: every present event passes
through unchanged, and when no tracked button qualifies, absence is
returned unchanged. -/
theorem repeat_only_on_absence (r : Repeat) (g : Gilrs) (now : ℕ) :
    (∀ e : Event, r.filter (some e) g now = some e) ∧
    ((∀ id gp, (id, gp) ∈ g.gamepads →
        ∀ nec bd, (nec, bd) ∈ gp.state.buttons →
          r.qualifies now bd = false) →
      r.filter none g now = none) := by
  refine ⟨fun e => rfl, fun h => ?_⟩
  rw [filter_none_eq_firstRepeat]
  simp only [Repeat.firstRepeat]
  rw [List.findSome?_eq_none_iff]
  intro p hp
  rcases hfind : p.2.state.buttons.find? fun q => r.qualifies now q.2 with _ | q
  · rw [hfind]
    rfl
  · have hq := List.find?_some hfind
    have hmem := List.mem_of_find?_eq_some hfind
    have := h p.1 p.2 (by simpa using hp) q.1 q.2 (by simpa using hmem)
    rw [this] at hq
    cases hq

/-- Witness for C7: a present event passes through a device set with one
idle button, and absence stays absent there. -/
theorem repeat_only_on_absence_witness :
    Repeat.filter Repeat.new (some ⟨0, 2, EventType.connected⟩) gIdle 1000 =
      some ⟨0, 2, EventType.connected⟩ ∧
    Repeat.filter Repeat.new none gIdle 1000 = none := by
  refine ⟨(repeat_only_on_absence Repeat.new gIdle 1000).1 _,
    (repeat_only_on_absence Repeat.new gIdle 1000).2 ?_⟩
  intro id gp hmem nec bd hbd
  have hgl : gIdle.gamepads = [(0, gpIdle)] := rfl
  rw [hgl] at hmem
  have hgp : gp = gpIdle := congrArg Prod.snd (List.mem_singleton.mp hmem)
  rw [hgp] at hbd
  have hbl : gpIdle.state.buttons = [(3, ⟨false, false, 7⟩)] := rfl
  rw [hbl] at hbd
  have hbd2 : bd = (⟨false, false, 7⟩ : ButtonData) :=
    congrArg Prod.snd (List.mem_singleton.mp hbd)
  rw [hbd2]
  rfl

/-- C10: the axis_dpad_to_button filter always returns an event carrying
the incoming event's id and timestamp, and the deadzone filter does so for
every remapped (non-dropped) AxisChanged event. -/
theorem id_time_preserved (g : Gilrs) (e : Event) (id time : ℕ) (axis : Axis)
    (val : ℝ) (nec : ℕ) (t : ℝ) :
    (∃ e1, axis_dpad_to_button (some e) g = some e1 ∧
      e1.id = e.id ∧ e1.time = e.time) ∧
    ((g.gamepad id).deadzone nec = some t →
      (g.gamepad id).state.value nec ≠
        (apply_deadzone val (pairedValue (g.gamepad id) axis) t).1 →
      ∃ e2, deadzone (some ⟨id, time, EventType.axisChanged axis val nec⟩) g =
        Except.ok (some e2) ∧ e2.id = id ∧ e2.time = time) := by
  constructor
  · rcases e with ⟨eid, etime, k⟩
    cases k <;> try exact ⟨_, rfl, rfl, rfl⟩
    case axisChanged a v n =>
      cases a <;> try exact ⟨_, rfl, rfl, rfl⟩
      case DPadX =>
        by_cases hcm : can_map (g.gamepad eid) = true
        · exact ⟨_, axis_dpad_DPadX g eid etime v n hcm,
            by split_ifs <;> rfl, by split_ifs <;> rfl⟩
        · exact ⟨⟨eid, etime, EventType.axisChanged Axis.DPadX v n⟩,
            by simp [axis_dpad_to_button, hcm], rfl, rfl⟩
      case DPadY =>
        by_cases hcm : can_map (g.gamepad eid) = true
        · exact ⟨_, axis_dpad_DPadY g eid etime v n hcm,
            by split_ifs <;> rfl, by split_ifs <;> rfl⟩
        · exact ⟨⟨eid, etime, EventType.axisChanged Axis.DPadY v n⟩,
            by simp [axis_dpad_to_button, hcm], rfl, rfl⟩
  · intro h hne
    exact ⟨_, by rw [deadzone_axisChanged g id time axis val nec t h,
      if_neg hne], rfl, rfl⟩

/-- Witness for C10: a synthesized dpad press and a remapped deadzone
event both keep the id and timestamp of their source events. -/
theorem id_time_preserved_witness :
    (∃ e1, axis_dpad_to_button
        (some ⟨2, 11, EventType.axisChanged Axis.DPadX 1 0⟩) gZero = some e1 ∧
      e1.id = 2 ∧ e1.time = 11) ∧
    (∃ e2, deadzone (some ⟨5, 9, EventType.axisChanged Axis.LeftZ 0.5 4⟩) gZero =
      Except.ok (some e2) ∧ e2.id = 5 ∧ e2.time = 9) :=
  ⟨(id_time_preserved gZero ⟨2, 11, EventType.axisChanged Axis.DPadX 1 0⟩ 5 9
      Axis.LeftZ 0.5 4 0.2).1,
    (id_time_preserved gZero ⟨2, 11, EventType.axisChanged Axis.DPadX 1 0⟩ 5 9
      Axis.LeftZ 0.5 4 0.2).2 rfl
      (by rw [show pairedValue (gZero.gamepad 5) Axis.LeftZ = 0 from rfl,
        apply_deadzone_eval_half]
          show (0 : ℝ) ≠ 0.375
          norm_num)⟩

/-- Counterexample to C1 as stated: on a mappable device with neither dpad
button tracked as pressed, a horizontal dpad value other than ±1 yields a
DPadLeft ButtonReleased event, not the claimed DPadRight one. -/
theorem axis_dpad_default_counterexample :
    axis_dpad_to_button (some ⟨0, 0, EventType.axisChanged Axis.DPadX 0 0⟩)
        gZero =
      some ⟨0, 0, EventType.buttonReleased Button.DPadLeft BTN_DPAD_LEFT⟩ ∧
    axis_dpad_to_button (some ⟨0, 0, EventType.axisChanged Axis.DPadX 0 0⟩)
        gZero ≠
      some ⟨0, 0, EventType.buttonReleased Button.DPadRight BTN_DPAD_RIGHT⟩ := by
  have h := axis_dpad_DPadX gZero 0 0 0 0 rfl
  rw [if_neg (by norm_num), if_neg (by norm_num),
    if_neg (by show ¬((gZero.gamepad 0).state.isPressed BTN_DPAD_RIGHT = true)
               intro hh
               exact Bool.noConfusion hh)] at h
  refine ⟨h, ?_⟩
  rw [h]
  simp [BTN_DPAD_LEFT, BTN_DPAD_RIGHT]

/-- C1 as amended: on a mappable device, horizontal dpad value 1 yields
ButtonPressed(DPadRight) and -1 yields ButtonPressed(DPadLeft); any other
value yields ButtonReleased(DPadRight) when DPadRight is tracked as
pressed and ButtonReleased(DPadLeft) otherwise — so the default when
neither is pressed is a DPadLeft release.  Vertically: 1 presses DPadUp,
-1 presses DPadDown, any other value releases DPadUp when it is tracked
as pressed and otherwise releases DPadDown. -/
theorem axis_dpad_contract (g : Gilrs) (id time : ℕ) (val : ℝ) (nec : ℕ)
    (hcm : can_map (g.gamepad id) = true) :
    (val = 1 →
      axis_dpad_to_button (some ⟨id, time, EventType.axisChanged Axis.DPadX val nec⟩) g =
        some ⟨id, time, EventType.buttonPressed Button.DPadRight BTN_DPAD_RIGHT⟩) ∧
    (val = -1 →
      axis_dpad_to_button (some ⟨id, time, EventType.axisChanged Axis.DPadX val nec⟩) g =
        some ⟨id, time, EventType.buttonPressed Button.DPadLeft BTN_DPAD_LEFT⟩) ∧
    (val ≠ 1 → val ≠ -1 →
      (g.gamepad id).state.isPressed BTN_DPAD_RIGHT = true →
      axis_dpad_to_button (some ⟨id, time, EventType.axisChanged Axis.DPadX val nec⟩) g =
        some ⟨id, time, EventType.buttonReleased Button.DPadRight BTN_DPAD_RIGHT⟩) ∧
    (val ≠ 1 → val ≠ -1 →
      (g.gamepad id).state.isPressed BTN_DPAD_RIGHT = false →
      axis_dpad_to_button (some ⟨id, time, EventType.axisChanged Axis.DPadX val nec⟩) g =
        some ⟨id, time, EventType.buttonReleased Button.DPadLeft BTN_DPAD_LEFT⟩) ∧
    (val = 1 →
      axis_dpad_to_button (some ⟨id, time, EventType.axisChanged Axis.DPadY val nec⟩) g =
        some ⟨id, time, EventType.buttonPressed Button.DPadUp BTN_DPAD_UP⟩) ∧
    (val = -1 →
      axis_dpad_to_button (some ⟨id, time, EventType.axisChanged Axis.DPadY val nec⟩) g =
        some ⟨id, time, EventType.buttonPressed Button.DPadDown BTN_DPAD_DOWN⟩) ∧
    (val ≠ 1 → val ≠ -1 →
      (g.gamepad id).state.isPressed BTN_DPAD_UP = true →
      axis_dpad_to_button (some ⟨id, time, EventType.axisChanged Axis.DPadY val nec⟩) g =
        some ⟨id, time, EventType.buttonReleased Button.DPadUp BTN_DPAD_UP⟩) ∧
    (val ≠ 1 → val ≠ -1 →
      (g.gamepad id).state.isPressed BTN_DPAD_UP = false →
      axis_dpad_to_button (some ⟨id, time, EventType.axisChanged Axis.DPadY val nec⟩) g =
        some ⟨id, time, EventType.buttonReleased Button.DPadDown BTN_DPAD_DOWN⟩) := by
  refine ⟨fun h1 => ?_, fun h2 => ?_, fun h1 h2 hpr => ?_, fun h1 h2 hpr => ?_,
    fun h1 => ?_, fun h2 => ?_, fun h1 h2 hpr => ?_, fun h1 h2 hpr => ?_⟩
  · rw [axis_dpad_DPadX g id time val nec hcm, if_pos h1]
  · rw [axis_dpad_DPadX g id time val nec hcm, if_neg (by rw [h2]; norm_num),
      if_pos h2]
  · rw [axis_dpad_DPadX g id time val nec hcm, if_neg h1, if_neg h2, if_pos hpr]
  · rw [axis_dpad_DPadX g id time val nec hcm, if_neg h1, if_neg h2,
      if_neg (by simp [hpr])]
  · rw [axis_dpad_DPadY g id time val nec hcm, if_pos h1]
  · rw [axis_dpad_DPadY g id time val nec hcm, if_neg (by rw [h2]; norm_num),
      if_pos h2]
  · rw [axis_dpad_DPadY g id time val nec hcm, if_neg h1, if_neg h2, if_pos hpr]
  · rw [axis_dpad_DPadY g id time val nec hcm, if_neg h1, if_neg h2,
      if_neg (by simp [hpr])]

/-- Witness for the amended C1: value 1 presses DPadRight, and value 0.5
with neither dpad button pressed releases DPadLeft. -/
theorem axis_dpad_contract_witness :
    axis_dpad_to_button (some ⟨0, 4, EventType.axisChanged Axis.DPadX 1 0⟩)
        gZero =
      some ⟨0, 4, EventType.buttonPressed Button.DPadRight BTN_DPAD_RIGHT⟩ ∧
    axis_dpad_to_button (some ⟨0, 4, EventType.axisChanged Axis.DPadX 0.5 0⟩)
        gZero =
      some ⟨0, 4, EventType.buttonReleased Button.DPadLeft BTN_DPAD_LEFT⟩ :=
  ⟨(axis_dpad_contract gZero 0 4 1 0 rfl).1 rfl,
    (axis_dpad_contract gZero 0 4 0.5 0 rfl).2.2.2.1 (by norm_num) (by norm_num)
      rfl⟩

/-- Counterexample to C3 as stated: threshold 0.2, stored value 0.375 (the
normalized image of the raw value 0.5, hence already normalized), incoming
value also 0.375.  The second application renormalizes to 0.21875 and
emits it; it does not drop. -/
theorem deadzone_idempotence_counterexample :
    deadzone (some ⟨0, 0, EventType.axisChanged Axis.LeftStickX 0.375 4⟩)
        gStored =
      Except.ok (some ⟨0, 0, EventType.axisChanged Axis.LeftStickX 0.21875 4⟩) ∧
    deadzone (some ⟨0, 0, EventType.axisChanged Axis.LeftStickX 0.375 4⟩)
        gStored ≠
      Except.ok (some Event.dropped) := by
  have h := deadzone_axisChanged gStored 0 0 Axis.LeftStickX 0.375 4 0.2 rfl
  rw [show pairedValue (gStored.gamepad 0) Axis.LeftStickX = 0 from rfl,
    apply_deadzone_eval_378] at h
  rw [if_neg (by show (0.375 : ℝ) ≠ 0.21875; norm_num)] at h
  refine ⟨h, ?_⟩
  rw [h]
  simp [Event.dropped]

/-- C3 as amended: the application drops exactly when the computed
normalized value equals the stored value; in particular reprocessing the
same raw value after the device state was updated with the filter's
previous output (same threshold, unchanged paired value) yields the
dropped sentinel.  An incoming value merely equal to the stored normalized
value is renormalized and re-emitted, not dropped. -/
theorem deadzone_second_application_dropped (g g' : Gilrs) (id time' : ℕ)
    (axis : Axis) (val : ℝ) (nec : ℕ) (t : ℝ)
    (h : (g.gamepad id).deadzone nec = some t)
    (h' : (g'.gamepad id).deadzone nec = some t)
    (hpair : pairedValue (g'.gamepad id) axis = pairedValue (g.gamepad id) axis)
    (hupd : (g'.gamepad id).state.value nec =
      (apply_deadzone val (pairedValue (g.gamepad id) axis) t).1) :
    deadzone (some ⟨id, time', EventType.axisChanged axis val nec⟩) g' =
      Except.ok (some Event.dropped) := by
  rw [deadzone_axisChanged g' id time' axis val nec t h', hpair, if_pos hupd]

/-- Witness for the amended C3: raw value 0.5, threshold 0.2; after the
state stores the normalized 0.375, reprocessing the same raw value is
dropped. -/
theorem deadzone_second_application_dropped_witness :
    deadzone (some ⟨0, 1, EventType.axisChanged Axis.LeftStickX 0.5 4⟩)
        gStored =
      Except.ok (some Event.dropped) :=
  deadzone_second_application_dropped gZero gStored 0 1 Axis.LeftStickX 0.5 4
    0.2 rfl rfl rfl
    (by rw [show pairedValue (gZero.gamepad 0) Axis.LeftStickX = 0 from rfl,
      apply_deadzone_eval_half]
        rfl)

end GilrsEv
